import Mathlib

/-!
Verification of the prediction-market arbitrage engine against its
specification.  Prices, sizes and money amounts are embedded as rational
numbers (`ℚ`); Python `None`-able values as `Option`; Python dataclasses as
structures.  Every definition is a direct transcription of the corresponding
source function, with source file and line references in its doc comment.
-/

namespace Arb

/-- Python `int(x)` on a float/rational: truncation toward zero. -/
def truncInt (q : ℚ) : ℤ :=
  if 0 ≤ q then ⌊q⌋ else ⌈q⌉

/-- Python `a or b` for two floats: `a` unless it is falsy (zero). -/
def pyOrQ (a b : ℚ) : ℚ :=
  if a = 0 then b else a

/-- Python `a or b` where `a : Optional[float]`: `a` unless it is `None` or
zero (both falsy). -/
def pyOrOpt (a : Option ℚ) (b : ℚ) : ℚ :=
  match a with
  | some x => if x = 0 then b else x
  | none => b

/-- Real-time quote data (src/src/models.py, `Quote`, lines 41-61).
Platform, contract id and timestamp are metadata unused by the claims. -/
structure Quote where
  bid : ℚ
  ask : ℚ
  bid_size : ℚ
  ask_size : ℚ
deriving DecidableEq

/-- Mapping between the two venues' contracts (src/src/models.py, lines
64-72). -/
structure ContractPair where
  event_name : String
  polymarket_token_id : String
  kalshi_ticker : String
  outcome : String
  active : Bool
deriving DecidableEq

/-- Detected arbitrage opportunity (src/src/models.py, lines 75-87). -/
structure ArbitrageOpportunity where
  contract_pair : ContractPair
  pm_quote : Quote
  kl_quote : Quote
  mode : String
  net_profit_rate : ℚ
  suggested_quantity : ℚ
  pm_price : ℚ
  kl_price : ℚ
deriving DecidableEq

/-- Order lifecycle status (src/src/models.py, lines 30-38).  `opn` models
the source's `OPEN` (a Lean keyword). -/
inductive OrderStatus where
  | pending
  | opn
  | filled
  | partially_filled
  | cancelled
  | failed
deriving DecidableEq

/-- Order representation (src/src/models.py, lines 90-106).  Platform, side,
order type, client id and timestamps are metadata unused by the claims. -/
structure Order where
  price : ℚ
  quantity : ℚ
  order_id : Option String
  status : OrderStatus
  filled_quantity : ℚ
  average_fill_price : Option ℚ
deriving DecidableEq

/-- Result of one arbitrage execution (src/src/models.py, lines 120-129). -/
structure TradeResult where
  success : Bool
  pm_order : Option Order
  kl_order : Option Order
  net_profit : ℚ
  error_message : Option String
  requires_panic_sell : Bool
deriving DecidableEq

/-- Detailed cost breakdown (src/src/modules/arbitrage_finder.py, lines
18-29). -/
structure CostAnalysis where
  pm_price : ℚ
  kl_price : ℚ
  pm_fee : ℚ
  kl_fee : ℚ
  total_cost : ℚ
  guaranteed_payout : ℚ
  net_profit : ℚ
  profit_rate : ℚ
deriving DecidableEq

/-- Trading parameters used by the Finder (src/src/config.py,
`TradingConfig`): only the two fields the analysed code reads. -/
structure TradingConfig where
  min_profit_target : ℚ
  capital_per_trade : ℚ
deriving DecidableEq

namespace PolymarketClient

/-- Polymarket taker fee, currently 0 bps
(src/src/clients/polymarket_client.py, lines 437-440). -/
def calculate_taker_fee (_amount : ℚ) : ℚ := 0

/-- Polymarket maker fee, currently 0 bps
(src/src/clients/polymarket_client.py, lines 442-445). -/
def calculate_maker_fee (_amount : ℚ) : ℚ := 0

end PolymarketClient

namespace KalshiClient

/-- Kalshi taker fee `0.07 × C × P × (1-P)`
(src/src/clients/kalshi_client.py, lines 348-351). -/
def calculate_taker_fee (count : ℤ) (price : ℚ) : ℚ :=
  (7 / 100 : ℚ) * (count : ℚ) * price * (1 - price)

end KalshiClient

/-- Net cost for Taker + Taker mode (src/src/modules/arbitrage_finder.py,
`calculate_net_cost_t2t`, lines 51-101).  The Kalshi fee is computed at
`int(quantity)` contracts and the Kalshi ask; total cost is the Polymarket
ask plus the cost of the complementary Kalshi position plus fees.  Division
by a non-positive total cost is guarded exactly as in the source. -/
def calculate_net_cost_t2t (_cfg : TradingConfig) (pm_quote kl_quote : Quote)
    (quantity : ℚ) : CostAnalysis :=
  let pm_price := pm_quote.ask
  let kl_price := kl_quote.ask
  let pm_fee := PolymarketClient.calculate_taker_fee (quantity * pm_price)
  let kl_fee := KalshiClient.calculate_taker_fee (truncInt quantity) kl_price
  let total_cost := pm_price + (1 - kl_quote.bid) + pm_fee + kl_fee
  let guaranteed_payout : ℚ := 1
  let net_profit := guaranteed_payout - total_cost
  let profit_rate := if 0 < total_cost then net_profit / total_cost else 0
  { pm_price := pm_price
    kl_price := 1 - kl_quote.bid
    pm_fee := pm_fee
    kl_fee := kl_fee
    total_cost := total_cost
    guaranteed_payout := guaranteed_payout
    net_profit := net_profit
    profit_rate := profit_rate }

/-- Net cost for Maker + Taker mode (src/src/modules/arbitrage_finder.py,
`calculate_net_cost_m2t`, lines 103-139). -/
def calculate_net_cost_m2t (_cfg : TradingConfig) (_pm_quote kl_quote : Quote)
    (target_maker_price quantity : ℚ) : CostAnalysis :=
  let pm_price := target_maker_price
  let kl_price := 1 - kl_quote.bid
  let pm_fee := PolymarketClient.calculate_maker_fee (quantity * pm_price)
  let kl_fee := KalshiClient.calculate_taker_fee (truncInt quantity) kl_price
  let total_cost := pm_price + kl_price + pm_fee + kl_fee
  let guaranteed_payout : ℚ := 1
  let net_profit := guaranteed_payout - total_cost
  let profit_rate := if 0 < total_cost then net_profit / total_cost else 0
  { pm_price := pm_price
    kl_price := kl_price
    pm_fee := pm_fee
    kl_fee := kl_fee
    total_cost := total_cost
    guaranteed_payout := guaranteed_payout
    net_profit := net_profit
    profit_rate := profit_rate }

/-- The algebraic bound on the maker price solved for in
`calculate_optimal_maker_price` (src/src/modules/arbitrage_finder.py, lines
152-163): the highest Polymarket price still clearing the minimum profit
target given the Kalshi cost and fee at one contract. -/
def m2tMaxPmPrice (cfg : TradingConfig) (kl_quote : Quote) : ℚ :=
  let kl_cost := 1 - kl_quote.bid
  let kl_fee := KalshiClient.calculate_taker_fee 1 kl_cost
  let min_profit := cfg.min_profit_target
  (1 - (1 + min_profit) * (kl_cost + kl_fee)) / (1 + min_profit)

/-- Optimal maker price on Polymarket (src/src/modules/arbitrage_finder.py,
`calculate_optimal_maker_price`, lines 141-169): the algebraic bound, nudged
to at most marginally above the current bid, then clamped to
`[0.01, 0.99]`. -/
def calculate_optimal_maker_price (cfg : TradingConfig) (pm_quote kl_quote : Quote) : ℚ :=
  max (1 / 100)
    (min (99 / 100) (min (m2tMaxPmPrice cfg kl_quote) (pm_quote.bid + 1 / 1000)))

/-- The average leg price used for T2T sizing
(src/src/modules/arbitrage_finder.py, line 183). -/
def t2tAvgPrice (pm_quote kl_quote : Quote) : ℚ :=
  (pm_quote.ask + (1 - kl_quote.bid)) / 2

/-- The capped T2T quantity: target quantity `capital / avg price` capped by
both venues' displayed size (src/src/modules/arbitrage_finder.py, lines
183-187; Python `min(a, b, c)` is `min a (min b c)`). -/
def t2tMaxQuantity (cfg : TradingConfig) (pm_quote kl_quote : Quote) : ℚ :=
  min pm_quote.ask_size
    (min kl_quote.bid_size (cfg.capital_per_trade / t2tAvgPrice pm_quote kl_quote))

/-- Total T2T cost at the capped quantity. -/
def t2tTotalCost (cfg : TradingConfig) (pm_quote kl_quote : Quote) : ℚ :=
  (calculate_net_cost_t2t cfg pm_quote kl_quote (t2tMaxQuantity cfg pm_quote kl_quote)).total_cost

/-- Taker + Taker opportunity search (src/src/modules/arbitrage_finder.py,
`find_t2t_opportunity`, lines 171-210): compute the capped quantity, discard
non-positive quantities, then emit the opportunity iff the profit rate at
that quantity reaches the minimum profit target. -/
def find_t2t_opportunity (cfg : TradingConfig) (contract_pair : ContractPair)
    (pm_quote kl_quote : Quote) : Option ArbitrageOpportunity :=
  if t2tMaxQuantity cfg pm_quote kl_quote ≤ 0 then none
  else if cfg.min_profit_target ≤
      (calculate_net_cost_t2t cfg pm_quote kl_quote
        (t2tMaxQuantity cfg pm_quote kl_quote)).profit_rate then
    some
      { contract_pair := contract_pair
        pm_quote := pm_quote
        kl_quote := kl_quote
        mode := "T2T"
        net_profit_rate :=
          (calculate_net_cost_t2t cfg pm_quote kl_quote
            (t2tMaxQuantity cfg pm_quote kl_quote)).profit_rate
        suggested_quantity := t2tMaxQuantity cfg pm_quote kl_quote
        pm_price :=
          (calculate_net_cost_t2t cfg pm_quote kl_quote
            (t2tMaxQuantity cfg pm_quote kl_quote)).pm_price
        kl_price :=
          (calculate_net_cost_t2t cfg pm_quote kl_quote
            (t2tMaxQuantity cfg pm_quote kl_quote)).kl_price }
  else none

/-- The average leg price used for M2T sizing
(src/src/modules/arbitrage_finder.py, line 231). -/
def m2tAvgPrice (target_maker_price : ℚ) (kl_quote : Quote) : ℚ :=
  (target_maker_price + (1 - kl_quote.bid)) / 2

/-- The capped M2T quantity (src/src/modules/arbitrage_finder.py, lines
230-235): for the maker leg no resting level is consumed, so only the
Kalshi bid size caps the target quantity. -/
def m2tMaxQuantity (cfg : TradingConfig) (target_maker_price : ℚ) (kl_quote : Quote) : ℚ :=
  min kl_quote.bid_size (cfg.capital_per_trade / m2tAvgPrice target_maker_price kl_quote)

/-- Maker + Taker opportunity search (src/src/modules/arbitrage_finder.py,
`find_m2t_opportunity`, lines 212-261).  A `none` target maker price (the
caller default) is replaced by the computed optimal price. -/
def find_m2t_opportunity (cfg : TradingConfig) (contract_pair : ContractPair)
    (pm_quote kl_quote : Quote) (target : Option ℚ) : Option ArbitrageOpportunity :=
  if m2tMaxQuantity cfg
      (target.getD (calculate_optimal_maker_price cfg pm_quote kl_quote)) kl_quote ≤ 0 then
    none
  else if cfg.min_profit_target ≤
      (calculate_net_cost_m2t cfg pm_quote kl_quote
        (target.getD (calculate_optimal_maker_price cfg pm_quote kl_quote))
        (m2tMaxQuantity cfg
          (target.getD (calculate_optimal_maker_price cfg pm_quote kl_quote))
          kl_quote)).profit_rate then
    some
      { contract_pair := contract_pair
        pm_quote := pm_quote
        kl_quote := kl_quote
        mode := "M2T"
        net_profit_rate :=
          (calculate_net_cost_m2t cfg pm_quote kl_quote
            (target.getD (calculate_optimal_maker_price cfg pm_quote kl_quote))
            (m2tMaxQuantity cfg
              (target.getD (calculate_optimal_maker_price cfg pm_quote kl_quote))
              kl_quote)).profit_rate
        suggested_quantity :=
          m2tMaxQuantity cfg
            (target.getD (calculate_optimal_maker_price cfg pm_quote kl_quote)) kl_quote
        pm_price := target.getD (calculate_optimal_maker_price cfg pm_quote kl_quote)
        kl_price :=
          (calculate_net_cost_m2t cfg pm_quote kl_quote
            (target.getD (calculate_optimal_maker_price cfg pm_quote kl_quote))
            (m2tMaxQuantity cfg
              (target.getD (calculate_optimal_maker_price cfg pm_quote kl_quote))
              kl_quote)).kl_price }
  else none

/-- All opportunities for one pair, M2T first
(src/src/modules/arbitrage_finder.py, `find_opportunities`, lines
263-286). -/
def find_opportunities (cfg : TradingConfig) (contract_pair : ContractPair)
    (pm_quote kl_quote : Quote) : List ArbitrageOpportunity :=
  (find_m2t_opportunity cfg contract_pair pm_quote kl_quote none).toList ++
    (find_t2t_opportunity cfg contract_pair pm_quote kl_quote).toList

/-- Analysis of all monitored pairs (src/src/modules/arbitrage_finder.py,
`analyze_all_pairs`, lines 288-339): gather every pair's opportunities,
sorted by net profit rate descending (Python `list.sort` with
`reverse=True` is a stable descending sort, as is `mergeSort` with the
reversed relation). -/
def analyze_all_pairs (cfg : TradingConfig)
    (pairs_quotes : List (ContractPair × Quote × Quote)) : List ArbitrageOpportunity :=
  let all := pairs_quotes.foldr
    (fun e acc => find_opportunities cfg e.1 e.2.1 e.2.2 ++ acc) []
  all.mergeSort fun a b => decide (b.net_profit_rate ≤ a.net_profit_rate)

/-! Concrete inputs for the Finder claims. -/

/-- Config with a 10% minimum profit rate, exposing the gap between the
spec's threshold `cost < 1 - r` and the code's `profit rate ≥ r`. -/
def cfgC2 : TradingConfig := { min_profit_target := 1 / 10, capital_per_trade := 5 }

def pairC2 : ContractPair :=
  { event_name := "EV", polymarket_token_id := "T", kalshi_ticker := "K",
    outcome := "YES", active := true }

/-- Polymarket quote: ask 0.45, ample size. -/
def pmC2 : Quote := { bid := 0, ask := 9 / 20, bid_size := 0, ask_size := 100 }

/-- Kalshi quote: bid 0.545, ask 1 (so the Kalshi taker fee vanishes). -/
def klC2 : Quote := { bid := 109 / 200, ask := 1, bid_size := 100, ask_size := 0 }

/-- C2, counterexample: with a 10% minimum profit rate and total cost
0.905, the spec's condition `cost < 1 - minProfitRate` fails
(0.905 ≥ 0.9), so the claim requires `find_t2t_opportunity` to return
none; the code nevertheless emits an opportunity, because its own test
`profit rate ≥ minProfitRate` (0.905 ≤ 1/(1+r) ≈ 0.909) still passes. -/
theorem C2_counterexample :
    (1 : ℚ) - cfgC2.min_profit_target ≤ t2tTotalCost cfgC2 pmC2 klC2 ∧
    (find_t2t_opportunity cfgC2 pairC2 pmC2 klC2).isSome = true := by
  constructor
  · norm_num [t2tTotalCost, calculate_net_cost_t2t, t2tMaxQuantity, t2tAvgPrice,
      cfgC2, pmC2, klC2, KalshiClient.calculate_taker_fee,
      PolymarketClient.calculate_taker_fee]
  · norm_num [find_t2t_opportunity, calculate_net_cost_t2t, t2tMaxQuantity, t2tAvgPrice,
      cfgC2, pmC2, klC2, KalshiClient.calculate_taker_fee,
      PolymarketClient.calculate_taker_fee, min_def]

/-- C2, amended: provided the liquidity-capped quantity is positive and the
total cost `C` at that quantity (Polymarket ask + (1 − Kalshi bid) + taker
fees) is positive, the T2T analysis returns an opportunity exactly when the
profit rate `(1 − C) / C` reaches the minimum profit target — a slightly
weaker threshold than the claimed `C < 1 − minProfitRate` — and the emitted
opportunity carries that profit rate, the capped quantity and the two leg
prices. -/
theorem C2_amended (cfg : TradingConfig) (pair : ContractPair) (pm kl : Quote)
    (hq : 0 < t2tMaxQuantity cfg pm kl) (hc : 0 < t2tTotalCost cfg pm kl) :
    find_t2t_opportunity cfg pair pm kl =
      (if cfg.min_profit_target ≤ (1 - t2tTotalCost cfg pm kl) / t2tTotalCost cfg pm kl then
        some
          { contract_pair := pair
            pm_quote := pm
            kl_quote := kl
            mode := "T2T"
            net_profit_rate := (1 - t2tTotalCost cfg pm kl) / t2tTotalCost cfg pm kl
            suggested_quantity := t2tMaxQuantity cfg pm kl
            pm_price := pm.ask
            kl_price := 1 - kl.bid }
      else none) := by
  have hrate : (calculate_net_cost_t2t cfg pm kl (t2tMaxQuantity cfg pm kl)).profit_rate
      = (1 - t2tTotalCost cfg pm kl) / t2tTotalCost cfg pm kl := by
    simp only [t2tTotalCost, calculate_net_cost_t2t] at hc ⊢
    rw [if_pos hc]
  simp only [find_t2t_opportunity, if_neg (not_le.mpr hq)]
  rw [hrate]
  rfl

def cfgW2 : TradingConfig := { min_profit_target := 1 / 500, capital_per_trade := 5 }

def pairW2 : ContractPair :=
  { event_name := "EW", polymarket_token_id := "TW", kalshi_ticker := "KW",
    outcome := "YES", active := true }

def pmW2 : Quote := { bid := 9 / 10, ask := 2 / 5, bid_size := 100, ask_size := 100 }

def klW2 : Quote := { bid := 11 / 20, ask := 1, bid_size := 100, ask_size := 100 }

/-- C2 witness: at ask 0.40 / bid 0.55 with zero fee, the total cost is
0.85, the profit rate 3/17 ≈ 0.176 clears the 0.002 target, and the claim's
characterization yields exactly the emitted opportunity. -/
theorem C2_amended_witness :
    find_t2t_opportunity cfgW2 pairW2 pmW2 klW2 =
      some
        { contract_pair := pairW2
          pm_quote := pmW2
          kl_quote := klW2
          mode := "T2T"
          net_profit_rate := 3 / 17
          suggested_quantity := 200 / 17
          pm_price := 2 / 5
          kl_price := 9 / 20 } := by
  rw [C2_amended cfgW2 pairW2 pmW2 klW2
    (by norm_num [t2tMaxQuantity, t2tAvgPrice, cfgW2, pmW2, klW2, min_def])
    (by norm_num [t2tTotalCost, calculate_net_cost_t2t, t2tMaxQuantity, t2tAvgPrice,
      cfgW2, pmW2, klW2, KalshiClient.calculate_taker_fee,
      PolymarketClient.calculate_taker_fee, min_def])]
  norm_num [t2tTotalCost, calculate_net_cost_t2t, t2tMaxQuantity, t2tAvgPrice,
    cfgW2, pmW2, klW2, KalshiClient.calculate_taker_fee,
    PolymarketClient.calculate_taker_fee, min_def]

def cfgC3 : TradingConfig := { min_profit_target := 1 / 500, capital_per_trade := 5 }

/-- Polymarket quote with best bid 0: the nudge `bid + 0.001` undercuts the
algebraic bound, and the clamp then lifts the price back to 0.01. -/
def pmC3 : Quote := { bid := 0, ask := 0, bid_size := 0, ask_size := 0 }

def klC3 : Quote := { bid := 1 / 2, ask := 0, bid_size := 0, ask_size := 0 }

/-- C3, counterexample: with `pm.bid = 0` and `kl.bid = 0.5`, the optimal
maker price is nudged down to `bid + 0.001` and then clamped to 0.01, so
plugging it back into the M2T cost formula gives a profit rate of 189/211
≈ 0.896 — more than 0.5 above the configured 0.002 minimum, far outside
any floating tolerance.  The claim's exact-boundary property therefore
fails for this quote pair. -/
theorem C3_counterexample :
    cfgC3.min_profit_target + 1 / 2 <
      (calculate_net_cost_m2t cfgC3 pmC3 klC3
        (calculate_optimal_maker_price cfgC3 pmC3 klC3) 1).profit_rate := by
  norm_num [calculate_net_cost_m2t, calculate_optimal_maker_price, m2tMaxPmPrice,
    cfgC3, pmC3, klC3, KalshiClient.calculate_taker_fee,
    PolymarketClient.calculate_maker_fee, truncInt, min_def, max_def]

/-- C3, amended: the optimal maker price always lies in `[0.01, 0.99]`
(never exceeds 0.99, never falls below 0.01); and whenever neither the
bid nudge nor the clamp bites — the algebraic bound is at most
`pm.bid + 0.001` and itself lies in `[0.01, 0.99]` — the price plugged back
into the M2T cost formula at quantity 1 yields a profit rate equal to
exactly the configured minimum profit target. -/
theorem C3_amended (cfg : TradingConfig) (pm kl : Quote) :
    (1 / 100 ≤ calculate_optimal_maker_price cfg pm kl ∧
      calculate_optimal_maker_price cfg pm kl ≤ 99 / 100) ∧
    (0 ≤ cfg.min_profit_target →
      m2tMaxPmPrice cfg kl ≤ pm.bid + 1 / 1000 →
      1 / 100 ≤ m2tMaxPmPrice cfg kl →
      m2tMaxPmPrice cfg kl ≤ 99 / 100 →
      (calculate_net_cost_m2t cfg pm kl
        (calculate_optimal_maker_price cfg pm kl) 1).profit_rate = cfg.min_profit_target) := by
  constructor
  · constructor
    · exact le_max_left _ _
    · exact max_le (by norm_num) (min_le_left _ _)
  · intro hr hnudge hlo hhi
    have hprice : calculate_optimal_maker_price cfg pm kl = m2tMaxPmPrice cfg kl := by
      unfold calculate_optimal_maker_price
      rw [min_eq_left hnudge, min_eq_right hhi, max_eq_right hlo]
    have h1r : (0 : ℚ) < 1 + cfg.min_profit_target := by linarith
    have htrunc : truncInt 1 = 1 := by decide
    have htot :
        m2tMaxPmPrice cfg kl + (1 - kl.bid) + PolymarketClient.calculate_maker_fee
            (1 * m2tMaxPmPrice cfg kl) +
          KalshiClient.calculate_taker_fee (truncInt 1) (1 - kl.bid)
          = 1 / (1 + cfg.min_profit_target) := by
      rw [htrunc]
      unfold m2tMaxPmPrice KalshiClient.calculate_taker_fee
        PolymarketClient.calculate_maker_fee
      field_simp
      ring
    have hpos : (0 : ℚ) < 1 / (1 + cfg.min_profit_target) := by positivity
    unfold calculate_net_cost_m2t
    rw [hprice]
    simp only [htot, if_pos hpos]
    field_simp

def cfgW3 : TradingConfig := { min_profit_target := 1 / 500, capital_per_trade := 5 }

def pmW3 : Quote := { bid := 12 / 25, ask := 0, bid_size := 0, ask_size := 0 }

def klW3 : Quote := { bid := 1 / 2, ask := 0, bid_size := 0, ask_size := 0 }

/-- C3 witness: at `kl.bid = 0.5`, `pm.bid = 0.48` and target 0.002, the
algebraic bound 96293/200400 ≈ 0.4805 lies inside the clamp and below the
nudge, so the boundary is tight: the recovered profit rate is exactly
0.002, and the price respects the clamp bounds. -/
theorem C3_amended_witness :
    1 / 100 ≤ calculate_optimal_maker_price cfgW3 pmW3 klW3 ∧
    (calculate_net_cost_m2t cfgW3 pmW3 klW3
      (calculate_optimal_maker_price cfgW3 pmW3 klW3) 1).profit_rate = 1 / 500 :=
  ⟨(C3_amended cfgW3 pmW3 klW3).1.1,
    (C3_amended cfgW3 pmW3 klW3).2 (by norm_num [cfgW3])
      (by norm_num [m2tMaxPmPrice, cfgW3, pmW3, klW3, KalshiClient.calculate_taker_fee])
      (by norm_num [m2tMaxPmPrice, cfgW3, klW3, KalshiClient.calculate_taker_fee])
      (by norm_num [m2tMaxPmPrice, cfgW3, klW3, KalshiClient.calculate_taker_fee])⟩

/-- C6: the suggested quantity of every emitted opportunity equals the
target quantity (capital per trade divided by the average of the two leg
prices) capped by the available displayed size at each consumed price
level — both venues' sizes for T2T; for M2T only the Kalshi bid size, the
maker leg being a resting order that consumes no displayed level — and any
opportunity whose capped quantity is non-positive is discarded.  In
particular, when available liquidity is below the target quantity the `min`
makes the emitted quantity equal the liquidity, never the target. -/
theorem C6_sizing (cfg : TradingConfig) (pair : ContractPair) (pm kl : Quote) :
    (∀ o ∈ find_t2t_opportunity cfg pair pm kl,
      o.suggested_quantity =
        min pm.ask_size
          (min kl.bid_size (cfg.capital_per_trade / ((pm.ask + (1 - kl.bid)) / 2)))) ∧
    (min pm.ask_size
        (min kl.bid_size (cfg.capital_per_trade / ((pm.ask + (1 - kl.bid)) / 2))) ≤ 0 →
      find_t2t_opportunity cfg pair pm kl = none) ∧
    (∀ o ∈ find_m2t_opportunity cfg pair pm kl none,
      o.suggested_quantity =
        min kl.bid_size (cfg.capital_per_trade /
          ((calculate_optimal_maker_price cfg pm kl + (1 - kl.bid)) / 2))) ∧
    (min kl.bid_size (cfg.capital_per_trade /
        ((calculate_optimal_maker_price cfg pm kl + (1 - kl.bid)) / 2)) ≤ 0 →
      find_m2t_opportunity cfg pair pm kl none = none) := by
  refine ⟨?_, ?_, ?_, ?_⟩
  · intro o ho
    unfold find_t2t_opportunity at ho
    split at ho
    · simp at ho
    · split at ho
      · simp only [Option.mem_def, Option.some_inj] at ho
        rw [← ho]
        rfl
      · simp at ho
  · intro h
    unfold find_t2t_opportunity
    rw [if_pos (show t2tMaxQuantity cfg pm kl ≤ 0 from h)]
  · intro o ho
    unfold find_m2t_opportunity at ho
    split at ho
    · simp at ho
    · split at ho
      · simp only [Option.mem_def, Option.some_inj] at ho
        rw [← ho]
        rfl
      · simp at ho
  · intro h
    unfold find_m2t_opportunity
    rw [if_pos (show m2tMaxQuantity cfg
      ((none : Option ℚ).getD (calculate_optimal_maker_price cfg pm kl)) kl ≤ 0 from h)]

def cfgW6 : TradingConfig := { min_profit_target := 1 / 500, capital_per_trade := 5 }

def pairW6 : ContractPair :=
  { event_name := "E6", polymarket_token_id := "T6", kalshi_ticker := "K6",
    outcome := "YES", active := true }

/-- Thin Polymarket book: only 3 contracts at the ask, below the ≈ 11.8
contract target. -/
def pmW6 : Quote := { bid := 9 / 10, ask := 2 / 5, bid_size := 100, ask_size := 3 }

def klW6 : Quote := { bid := 11 / 20, ask := 1, bid_size := 100, ask_size := 100 }

/-- Kalshi side with no displayed bid size. -/
def klW6z : Quote := { bid := 11 / 20, ask := 1, bid_size := 0, ask_size := 100 }

def oppW6 : ArbitrageOpportunity :=
  { contract_pair := pairW6
    pm_quote := pmW6
    kl_quote := klW6
    mode := "T2T"
    net_profit_rate := 3 / 17
    suggested_quantity := 3
    pm_price := 2 / 5
    kl_price := 9 / 20 }

lemma oppW6_mem : oppW6 ∈ find_t2t_opportunity cfgW6 pairW6 pmW6 klW6 := by
  rw [Option.mem_def]
  norm_num [find_t2t_opportunity, calculate_net_cost_t2t, t2tMaxQuantity, t2tAvgPrice,
    cfgW6, pmW6, klW6, pairW6, oppW6, KalshiClient.calculate_taker_fee,
    PolymarketClient.calculate_taker_fee, min_def]

lemma klW6z_cap_nonpos :
    min klW6z.bid_size (cfgW6.capital_per_trade /
      ((calculate_optimal_maker_price cfgW6 pmW6 klW6z + (1 - klW6z.bid)) / 2)) ≤ 0 := by
  simp only [klW6z]
  exact min_le_left 0 _

/-- C6 witness: with liquidity 3 below the ≈ 11.8 target, the emitted T2T
quantity is the capped minimum (here 3, the liquidity); and with zero
Kalshi bid size the M2T search returns none. -/
theorem C6_sizing_witness :
    oppW6.suggested_quantity =
      min pmW6.ask_size
        (min klW6.bid_size (cfgW6.capital_per_trade / ((pmW6.ask + (1 - klW6.bid)) / 2))) ∧
    find_m2t_opportunity cfgW6 pairW6 pmW6 klW6z none = none :=
  ⟨(C6_sizing cfgW6 pairW6 pmW6 klW6).1 oppW6 oppW6_mem,
    (C6_sizing cfgW6 pairW6 pmW6 klW6z).2.2.2 klW6z_cap_nonpos⟩

/-!
Position Ledger.  The creation timestamp is modelled by a `DateTime`
structure whose ISO-8601 rendering and parsing are implemented concretely.
-/

/-- Modelled from the spec: Python `datetime` carries year, month, day,
hour, minute, second and microsecond; the library's value lives outside
this repository, so only the fields serialized by the Position Ledger are
modelled. -/
structure DateTime where
  year : ℕ
  month : ℕ
  day : ℕ
  hour : ℕ
  minute : ℕ
  second : ℕ
  microsecond : ℕ
deriving DecidableEq

/-- Field bounds guaranteed by Python `datetime` (year at most 9999, the
other fields two digits, microsecond six digits); what the fixed-width
ISO-8601 rendering needs. -/
def DateTime.Valid (d : DateTime) : Prop :=
  d.year < 10000 ∧ d.month < 100 ∧ d.day < 100 ∧ d.hour < 100 ∧
    d.minute < 100 ∧ d.second < 100 ∧ d.microsecond < 1000000

instance (d : DateTime) : Decidable d.Valid := by
  unfold DateTime.Valid
  infer_instance

/-- The decimal digit character for one digit. -/
def dChar (k : ℕ) : Char := Nat.digitChar k

/-- The digit value of a decimal digit character. -/
def dVal (c : Char) : ℕ := c.toNat - 48

/-- Two-digit zero-padded decimal rendering. -/
def pad2 (n : ℕ) : List Char := [dChar (n / 10), dChar (n % 10)]

/-- Four-digit zero-padded decimal rendering. -/
def pad4 (n : ℕ) : List Char :=
  [dChar (n / 1000), dChar (n / 100 % 10), dChar (n / 10 % 10), dChar (n % 10)]

/-- Six-digit zero-padded decimal rendering. -/
def pad6 (n : ℕ) : List Char :=
  [dChar (n / 100000), dChar (n / 10000 % 10), dChar (n / 1000 % 10),
    dChar (n / 100 % 10), dChar (n / 10 % 10), dChar (n % 10)]

/-- Modelled from the spec: Python `datetime.isoformat()` (the serializer
used by `ArbitragePosition.to_dict`, src/src/models.py line 184), emitting
`YYYY-MM-DDTHH:MM:SS` with a `.ffffff` suffix exactly when the microsecond
field is nonzero. -/
def DateTime.isoformat (d : DateTime) : String :=
  String.mk
    (pad4 d.year ++ '-' :: pad2 d.month ++ '-' :: pad2 d.day ++
      'T' :: pad2 d.hour ++ ':' :: pad2 d.minute ++ ':' :: pad2 d.second ++
      (if d.microsecond = 0 then [] else '.' :: pad6 d.microsecond))

/-- Character-level ISO-8601 parser: accepts the two fixed-width shapes
`isoformat` produces, validating separators and digits. -/
def fromisoChars : List Char → Option DateTime
  | [y1, y2, y3, y4, a, m1, m2, b, d1, d2, t, h1, h2, c, n1, n2, e, c1, c2] =>
    if a = '-' ∧ b = '-' ∧ t = 'T' ∧ c = ':' ∧ e = ':' ∧
        y1.isDigit = true ∧ y2.isDigit = true ∧ y3.isDigit = true ∧ y4.isDigit = true ∧
        m1.isDigit = true ∧ m2.isDigit = true ∧ d1.isDigit = true ∧ d2.isDigit = true ∧
        h1.isDigit = true ∧ h2.isDigit = true ∧ n1.isDigit = true ∧ n2.isDigit = true ∧
        c1.isDigit = true ∧ c2.isDigit = true then
      some
        { year := dVal y1 * 1000 + dVal y2 * 100 + dVal y3 * 10 + dVal y4
          month := dVal m1 * 10 + dVal m2
          day := dVal d1 * 10 + dVal d2
          hour := dVal h1 * 10 + dVal h2
          minute := dVal n1 * 10 + dVal n2
          second := dVal c1 * 10 + dVal c2
          microsecond := 0 }
    else none
  | [y1, y2, y3, y4, a, m1, m2, b, d1, d2, t, h1, h2, c, n1, n2, e, c1, c2,
      dot, u1, u2, u3, u4, u5, u6] =>
    if a = '-' ∧ b = '-' ∧ t = 'T' ∧ c = ':' ∧ e = ':' ∧ dot = '.' ∧
        y1.isDigit = true ∧ y2.isDigit = true ∧ y3.isDigit = true ∧ y4.isDigit = true ∧
        m1.isDigit = true ∧ m2.isDigit = true ∧ d1.isDigit = true ∧ d2.isDigit = true ∧
        h1.isDigit = true ∧ h2.isDigit = true ∧ n1.isDigit = true ∧ n2.isDigit = true ∧
        c1.isDigit = true ∧ c2.isDigit = true ∧
        u1.isDigit = true ∧ u2.isDigit = true ∧ u3.isDigit = true ∧
        u4.isDigit = true ∧ u5.isDigit = true ∧ u6.isDigit = true then
      some
        { year := dVal y1 * 1000 + dVal y2 * 100 + dVal y3 * 10 + dVal y4
          month := dVal m1 * 10 + dVal m2
          day := dVal d1 * 10 + dVal d2
          hour := dVal h1 * 10 + dVal h2
          minute := dVal n1 * 10 + dVal n2
          second := dVal c1 * 10 + dVal c2
          microsecond := dVal u1 * 100000 + dVal u2 * 10000 + dVal u3 * 1000 +
            dVal u4 * 100 + dVal u5 * 10 + dVal u6 }
    else none
  | _ => none

/-- Modelled from the spec: Python `datetime.fromisoformat` (the parser
used by `ArbitragePosition.from_dict`, src/src/models.py line 200).
Failure (`none`) models the exception Python raises on malformed input. -/
def fromisoformat (s : String) : Option DateTime :=
  fromisoChars s.data

lemma dChar_toNat {k : ℕ} (h : k < 10) : (dChar k).toNat = 48 + k := by
  interval_cases k <;> rfl

lemma dVal_dChar {k : ℕ} (h : k < 10) : dVal (dChar k) = k := by
  rw [dVal, dChar_toNat h]
  omega

lemma dChar_isDigit {k : ℕ} (h : k < 10) : (dChar k).isDigit = true := by
  interval_cases k <;> rfl

lemma val4 {n : ℕ} (h : n < 10000) :
    dVal (dChar (n / 1000)) * 1000 + dVal (dChar (n / 100 % 10)) * 100 +
      dVal (dChar (n / 10 % 10)) * 10 + dVal (dChar (n % 10)) = n := by
  rw [dVal_dChar (by omega), dVal_dChar (by omega), dVal_dChar (by omega),
    dVal_dChar (by omega)]
  omega

lemma val2 {n : ℕ} (h : n < 100) :
    dVal (dChar (n / 10)) * 10 + dVal (dChar (n % 10)) = n := by
  rw [dVal_dChar (by omega), dVal_dChar (by omega)]
  omega

lemma val6 {n : ℕ} (h : n < 1000000) :
    dVal (dChar (n / 100000)) * 100000 + dVal (dChar (n / 10000 % 10)) * 10000 +
      dVal (dChar (n / 1000 % 10)) * 1000 + dVal (dChar (n / 100 % 10)) * 100 +
      dVal (dChar (n / 10 % 10)) * 10 + dVal (dChar (n % 10)) = n := by
  rw [dVal_dChar (by omega), dVal_dChar (by omega), dVal_dChar (by omega),
    dVal_dChar (by omega), dVal_dChar (by omega), dVal_dChar (by omega)]
  omega

/-- ISO-8601 serialization is lossless on valid datetimes. -/
lemma fromiso_iso (d : DateTime) (hd : d.Valid) :
    fromisoformat d.isoformat = some d := by
  obtain ⟨y, mo, dy, hh, mi, ss, us⟩ := d
  obtain ⟨h1, h2, h3, h4, h5, h6, h7⟩ := hd
  dsimp only at h1 h2 h3 h4 h5 h6 h7
  by_cases hus : us = 0
  · subst hus
    show fromisoChars _ = _
    simp only [DateTime.isoformat, pad4, pad2, pad6, if_pos rfl, List.cons_append,
      List.nil_append, List.append_nil]
    show fromisoChars [_, _, _, _, '-', _, _, '-', _, _, 'T', _, _, ':', _, _, ':', _, _] = _
    rw [fromisoChars]
    rw [if_pos ⟨rfl, rfl, rfl, rfl, rfl,
      dChar_isDigit (by omega), dChar_isDigit (by omega), dChar_isDigit (by omega),
      dChar_isDigit (by omega), dChar_isDigit (by omega), dChar_isDigit (by omega),
      dChar_isDigit (by omega), dChar_isDigit (by omega), dChar_isDigit (by omega),
      dChar_isDigit (by omega), dChar_isDigit (by omega), dChar_isDigit (by omega),
      dChar_isDigit (by omega), dChar_isDigit (by omega)⟩]
    rw [Option.some_inj, DateTime.mk.injEq]
    exact ⟨val4 h1, val2 h2, val2 h3, val2 h4, val2 h5, val2 h6, rfl⟩
  · show fromisoChars _ = _
    simp only [DateTime.isoformat, pad4, pad2, pad6, if_neg hus, List.cons_append,
      List.nil_append, List.append_nil]
    show fromisoChars [_, _, _, _, '-', _, _, '-', _, _, 'T', _, _, ':', _, _, ':', _, _,
      '.', _, _, _, _, _, _] = _
    rw [fromisoChars]
    rw [if_pos ⟨rfl, rfl, rfl, rfl, rfl, rfl,
      dChar_isDigit (by omega), dChar_isDigit (by omega), dChar_isDigit (by omega),
      dChar_isDigit (by omega), dChar_isDigit (by omega), dChar_isDigit (by omega),
      dChar_isDigit (by omega), dChar_isDigit (by omega), dChar_isDigit (by omega),
      dChar_isDigit (by omega), dChar_isDigit (by omega), dChar_isDigit (by omega),
      dChar_isDigit (by omega), dChar_isDigit (by omega), dChar_isDigit (by omega),
      dChar_isDigit (by omega), dChar_isDigit (by omega), dChar_isDigit (by omega),
      dChar_isDigit (by omega), dChar_isDigit (by omega)⟩]
    rw [Option.some_inj, DateTime.mk.injEq]
    exact ⟨val4 h1, val2 h2, val2 h3, val2 h4, val2 h5, val2 h6, val6 h7⟩

/-- Paired arbitrage position (src/src/models.py, `ArbitragePosition`,
lines 132-157). -/
structure ArbitragePosition where
  position_id : String
  contract_pair : ContractPair
  pm_token_id : String
  pm_quantity : ℚ
  pm_entry_price : ℚ
  kl_ticker : String
  kl_quantity : ℚ
  kl_entry_price : ℚ
  total_entry_cost : ℚ
  created_at : DateTime
deriving DecidableEq

/-- Matched quantity, the minimum of both legs (src/src/models.py, lines
159-162). -/
def ArbitragePosition.quantity (p : ArbitragePosition) : ℚ :=
  min p.pm_quantity p.kl_quantity

/-- Exit value at the given closing bids (src/src/models.py, lines
164-166). -/
def ArbitragePosition.calculate_exit_value (p : ArbitragePosition) (pm_bid kl_bid : ℚ) : ℚ :=
  pm_bid * p.pm_quantity + kl_bid * p.kl_quantity

/-- Exit profit at the given closing bids (src/src/models.py, lines
168-170). -/
def ArbitragePosition.calculate_exit_profit (p : ArbitragePosition) (pm_bid kl_bid : ℚ) : ℚ :=
  p.calculate_exit_value pm_bid kl_bid - p.total_entry_cost

/-- The serialized record of one position (src/src/models.py, `to_dict`,
lines 172-185): the JSON object's fields, the timestamp as an ISO
string. -/
structure PosDict where
  position_id : String
  event_name : String
  pm_token_id : String
  pm_quantity : ℚ
  pm_entry_price : ℚ
  kl_ticker : String
  kl_quantity : ℚ
  kl_entry_price : ℚ
  total_entry_cost : ℚ
  created_at : String
deriving DecidableEq

/-- Serialization (src/src/models.py, `to_dict`, lines 172-185). -/
def ArbitragePosition.to_dict (p : ArbitragePosition) : PosDict :=
  { position_id := p.position_id
    event_name := p.contract_pair.event_name
    pm_token_id := p.pm_token_id
    pm_quantity := p.pm_quantity
    pm_entry_price := p.pm_entry_price
    kl_ticker := p.kl_ticker
    kl_quantity := p.kl_quantity
    kl_entry_price := p.kl_entry_price
    total_entry_cost := p.total_entry_cost
    created_at := p.created_at.isoformat }

/-- Deserialization (src/src/models.py, `from_dict`, lines 187-201);
`none` models the exception raised on an unparseable timestamp. -/
def ArbitragePosition.from_dict (data : PosDict) (pair : ContractPair) :
    Option ArbitragePosition :=
  (fromisoformat data.created_at).map fun t =>
    { position_id := data.position_id
      contract_pair := pair
      pm_token_id := data.pm_token_id
      pm_quantity := data.pm_quantity
      pm_entry_price := data.pm_entry_price
      kl_ticker := data.kl_ticker
      kl_quantity := data.kl_quantity
      kl_entry_price := data.kl_entry_price
      total_entry_cost := data.total_entry_cost
      created_at := t }

/-- Durable save (src/src/modules/position_manager.py, `_save_positions`,
lines 76-90): the dict of positions is written as the list of serialized
records, in insertion order. -/
def save_positions (positions : List ArbitragePosition) : List PosDict :=
  positions.map ArbitragePosition.to_dict

/-- Durable load (src/src/modules/position_manager.py, `_load_positions`,
lines 49-74): each record is turned back into a position, rebuilding the
contract pair from the stored event name and contract identifiers with
outcome hard-wired to `"YES"`; an exception mid-loop is caught, keeping the
positions loaded so far. -/
def load_positions : List PosDict → List ArbitragePosition
  | [] => []
  | pd :: rest =>
    match ArbitragePosition.from_dict pd
      { event_name := pd.event_name
        polymarket_token_id := pd.pm_token_id
        kalshi_ticker := pd.kl_ticker
        outcome := "YES"
        active := true } with
    | some position => position :: load_positions rest
    | none => []

/-- The fields of a position the round-trip claim compares: id, leg
quantities and entry prices, total entry cost, creation timestamp, plus the
two venue contract identifiers. -/
def posFields (p : ArbitragePosition) :
    String × String × String × ℚ × ℚ × ℚ × ℚ × ℚ × DateTime :=
  (p.position_id, p.pm_token_id, p.kl_ticker, p.pm_quantity, p.pm_entry_price,
    p.kl_quantity, p.kl_entry_price, p.total_entry_cost, p.created_at)

lemma from_dict_to_dict (p : ArbitragePosition) (h : p.created_at.Valid)
    (pair : ContractPair) :
    ArbitragePosition.from_dict p.to_dict pair =
      some
        { position_id := p.position_id
          contract_pair := pair
          pm_token_id := p.pm_token_id
          pm_quantity := p.pm_quantity
          pm_entry_price := p.pm_entry_price
          kl_ticker := p.kl_ticker
          kl_quantity := p.kl_quantity
          kl_entry_price := p.kl_entry_price
          total_entry_cost := p.total_entry_cost
          created_at := p.created_at } := by
  unfold ArbitragePosition.from_dict ArbitragePosition.to_dict
  dsimp only
  rw [fromiso_iso p.created_at h]
  rfl

/-- C4: saving the ledger and reloading it reproduces the position set —
identical position ids, venue contract identifiers, leg quantities, entry
prices, total entry costs, and creation timestamps, the latter
round-tripping losslessly through the ISO-8601 serialization.  The field
bounds are those Python's `datetime` guarantees; distinct position ids
reflect the ledger's id-keyed dict. -/
theorem C4_roundtrip (ps : List ArbitragePosition)
    (hvalid : ∀ p ∈ ps, p.created_at.Valid)
    (hids : (ps.map fun p => p.position_id).Nodup) :
    (load_positions (save_positions ps)).map posFields = ps.map posFields := by
  induction ps with
  | nil => rfl
  | cons p rest ih =>
    have hp : p.created_at.Valid := hvalid p (by simp)
    have hrest : ∀ q ∈ rest, q.created_at.Valid := fun q hq => hvalid q (by simp [hq])
    have hids' : (rest.map fun p => p.position_id).Nodup :=
      (List.nodup_cons.mp hids).2
    simp only [save_positions, List.map_cons, load_positions]
    rw [from_dict_to_dict p hp]
    simp only [List.map_cons]
    rw [show save_positions rest = rest.map ArbitragePosition.to_dict from rfl] at ih
    rw [ih hrest hids']
    rfl

def dtW4 : DateTime :=
  { year := 2026, month := 10, day := 12, hour := 13, minute := 45, second := 30,
    microsecond := 123456 }

def pairW4 : ContractPair :=
  { event_name := "E4", polymarket_token_id := "T4", kalshi_ticker := "K4",
    outcome := "NO", active := true }

def posW4 : ArbitragePosition :=
  { position_id := "pos-4"
    contract_pair := pairW4
    pm_token_id := "T4"
    pm_quantity := 10
    pm_entry_price := 2 / 5
    kl_ticker := "K4"
    kl_quantity := 10
    kl_entry_price := 9 / 20
    total_entry_cost := 17 / 2
    created_at := dtW4 }

/-- C4 witness: a concrete one-position ledger (microsecond-precision
timestamp included) survives the save/load round trip unchanged in every
compared field. -/
theorem C4_roundtrip_witness :
    (load_positions (save_positions [posW4])).map posFields = [posW4].map posFields := by
  apply C4_roundtrip
  · intro p hp
    rw [List.mem_singleton] at hp
    subst hp
    decide
  · simp

/-- Detected exit opportunity (src/src/models.py, lines 204-214). -/
structure ExitOpportunity where
  position : ArbitragePosition
  pm_bid : ℚ
  kl_bid : ℚ
  exit_value : ℚ
  profit : ℚ
  profit_rate : ℚ
deriving DecidableEq

/-- The exit profit rate with the division guard
(src/src/modules/position_manager.py, line 217): zero whenever the total
entry cost is not strictly positive. -/
def exitProfitRate (position : ArbitragePosition) (pm_bid kl_bid : ℚ) : ℚ :=
  if 0 < position.total_entry_cost then
    position.calculate_exit_profit pm_bid kl_bid / position.total_entry_cost
  else 0

/-- Exit check for one position (src/src/modules/position_manager.py,
`find_exit_opportunity`, lines 184-234): positions with non-positive
matched quantity are skipped; the Kalshi closing bid is the NO bid
`1 - kl ask`; the opportunity is emitted iff the profit rate reaches the
minimum exit threshold. -/
def find_exit_opportunity (min_exit_profit_rate : ℚ) (position : ArbitragePosition)
    (pm_quote kl_quote : Quote) : Option ExitOpportunity :=
  if position.quantity ≤ 0 then none
  else if min_exit_profit_rate ≤ exitProfitRate position pm_quote.bid (1 - kl_quote.ask) then
    some
      { position := position
        pm_bid := pm_quote.bid
        kl_bid := 1 - kl_quote.ask
        exit_value := position.calculate_exit_value pm_quote.bid (1 - kl_quote.ask)
        profit := position.calculate_exit_profit pm_quote.bid (1 - kl_quote.ask)
        profit_rate := exitProfitRate position pm_quote.bid (1 - kl_quote.ask) }
  else none

/-- Exit scan over all open positions
(src/src/modules/position_manager.py, `find_all_exit_opportunities`, lines
236-269): for each position with a current quote pair, run the exit check;
sort the hits by profit rate descending (`list.sort` with `reverse=True`
is stable descending, as is `mergeSort` with the reversed relation). -/
def exitStep (min_exit_profit_rate : ℚ) (quotes : String → Option (Quote × Quote))
    (position : ArbitragePosition) : Option ExitOpportunity :=
  (quotes position.pm_token_id).bind fun pk =>
    find_exit_opportunity min_exit_profit_rate position pk.1 pk.2

def find_all_exit_opportunities (min_exit_profit_rate : ℚ)
    (positions : List ArbitragePosition) (quotes : String → Option (Quote × Quote)) :
    List ExitOpportunity :=
  (positions.filterMap (exitStep min_exit_profit_rate quotes)).mergeSort
    fun a b => decide (b.profit_rate ≤ a.profit_rate)

/-- The position `record_position` constructs on success
(src/src/modules/position_manager.py, lines 117-144): quantities fall back
through Python `or` chains (`filled_quantity or quantity or
suggested_quantity`, with `int(...)` on the Kalshi side), prices use the
average fill price unless it is falsy (`None` or zero), and the total cost
sums price times quantity over both legs. -/
def recordedPosition (opportunity : ArbitrageOpportunity) (pm_order kl_order : Order)
    (position_id : String) (now : DateTime) : ArbitragePosition :=
  { position_id := position_id
    contract_pair := opportunity.contract_pair
    pm_token_id := opportunity.contract_pair.polymarket_token_id
    pm_quantity := pyOrQ pm_order.filled_quantity
      (pyOrQ pm_order.quantity opportunity.suggested_quantity)
    pm_entry_price := pyOrOpt pm_order.average_fill_price opportunity.pm_price
    kl_ticker := opportunity.contract_pair.kalshi_ticker
    kl_quantity := pyOrQ kl_order.filled_quantity
      (pyOrQ kl_order.quantity ((truncInt opportunity.suggested_quantity : ℤ) : ℚ))
    kl_entry_price := pyOrOpt kl_order.average_fill_price opportunity.kl_price
    total_entry_cost :=
      pyOrOpt pm_order.average_fill_price opportunity.pm_price *
        pyOrQ pm_order.filled_quantity
          (pyOrQ pm_order.quantity opportunity.suggested_quantity) +
      pyOrOpt kl_order.average_fill_price opportunity.kl_price *
        pyOrQ kl_order.filled_quantity
          (pyOrQ kl_order.quantity ((truncInt opportunity.suggested_quantity : ℤ) : ℚ))
    created_at := now }

/-- Recording a filled trade as a position
(src/src/modules/position_manager.py, `record_position`, lines 92-156).
The fresh uuid and the creation instant are passed in explicitly; the
returned pair is (created position or `none`, updated position list). -/
def record_position (positions : List ArbitragePosition)
    (opportunity : ArbitrageOpportunity) (trade_result : TradeResult)
    (position_id : String) (now : DateTime) :
    Option ArbitragePosition × List ArbitragePosition :=
  if trade_result.success = false then (none, positions)
  else
    match trade_result.pm_order, trade_result.kl_order with
    | some pm_order, some kl_order =>
      if pyOrQ pm_order.filled_quantity
            (pyOrQ pm_order.quantity opportunity.suggested_quantity) ≤ 0 ∨
          pyOrQ kl_order.filled_quantity
            (pyOrQ kl_order.quantity
              ((truncInt opportunity.suggested_quantity : ℤ) : ℚ)) ≤ 0 then
        (none, positions)
      else
        (some (recordedPosition opportunity pm_order kl_order position_id now),
          positions ++ [recordedPosition opportunity pm_order kl_order position_id now])
    | _, _ => (none, positions)

/-- C10: the three guarded divisions are total — the T2T and M2T cost
analyses define the profit rate as 0 whenever the total cost is not
strictly positive, and the exit check defines the exit profit rate as 0
whenever the position's total entry cost is not strictly positive, so no
input can divide by zero. -/
theorem C10_division_totality :
    (∀ (cfg : TradingConfig) (pm kl : Quote) (q : ℚ),
      (calculate_net_cost_t2t cfg pm kl q).total_cost ≤ 0 →
      (calculate_net_cost_t2t cfg pm kl q).profit_rate = 0) ∧
    (∀ (cfg : TradingConfig) (pm kl : Quote) (p q : ℚ),
      (calculate_net_cost_m2t cfg pm kl p q).total_cost ≤ 0 →
      (calculate_net_cost_m2t cfg pm kl p q).profit_rate = 0) ∧
    (∀ (position : ArbitragePosition) (pm_bid kl_bid : ℚ),
      position.total_entry_cost ≤ 0 →
      exitProfitRate position pm_bid kl_bid = 0) := by
  refine ⟨?_, ?_, ?_⟩
  · intro cfg pm kl q h
    simp only [calculate_net_cost_t2t] at h ⊢
    rw [if_neg (not_lt.mpr h)]
  · intro cfg pm kl p q h
    simp only [calculate_net_cost_m2t] at h ⊢
    rw [if_neg (not_lt.mpr h)]
  · intro position pm_bid kl_bid h
    unfold exitProfitRate
    rw [if_neg (not_lt.mpr h)]

def cfgT10 : TradingConfig := { min_profit_target := 1 / 500, capital_per_trade := 5 }

/-- A degenerate quote making the T2T total cost negative. -/
def pmT10 : Quote := { bid := 0, ask := -1, bid_size := 0, ask_size := 0 }

def klT10 : Quote := { bid := 1, ask := 1, bid_size := 0, ask_size := 0 }

def posT10 : ArbitragePosition :=
  { position_id := "p10"
    contract_pair :=
      { event_name := "E10", polymarket_token_id := "T10", kalshi_ticker := "K10",
        outcome := "YES", active := true }
    pm_token_id := "T10"
    pm_quantity := 1
    pm_entry_price := 0
    kl_ticker := "K10"
    kl_quantity := 1
    kl_entry_price := 0
    total_entry_cost := 0
    created_at := dtW4 }

/-- C10 witness: at a total cost of -1 (T2T and M2T) and a zero entry
cost, the three profit rates all evaluate to 0 rather than dividing. -/
theorem C10_division_totality_witness :
    (calculate_net_cost_t2t cfgT10 pmT10 klT10 0).profit_rate = 0 ∧
    (calculate_net_cost_m2t cfgT10 pmT10 klT10 (-1) 0).profit_rate = 0 ∧
    exitProfitRate posT10 0 0 = 0 :=
  ⟨C10_division_totality.1 cfgT10 pmT10 klT10 0
      (by norm_num [calculate_net_cost_t2t, pmT10, klT10,
        KalshiClient.calculate_taker_fee, PolymarketClient.calculate_taker_fee]),
    C10_division_totality.2.1 cfgT10 pmT10 klT10 (-1) 0
      (by norm_num [calculate_net_cost_m2t, pmT10, klT10,
        KalshiClient.calculate_taker_fee, PolymarketClient.calculate_maker_fee]),
    C10_division_totality.2.2 posT10 0 0 (by norm_num [posT10])⟩

/-- C8: every exit opportunity emitted for the open positions carries the
claimed economics — exit value `(pm bid × pm quantity) + ((1 − kl ask) ×
kl quantity)` against the quotes supplied for its position, profit = exit
value − total entry cost, profit rate = profit / cost (0 on non-positive
cost) — it is included only if the profit rate meets the minimum exit
threshold, and the returned list is sorted by profit rate descending. -/
theorem C8_exits (min_exit_profit_rate : ℚ) (positions : List ArbitragePosition)
    (quotes : String → Option (Quote × Quote)) :
    (find_all_exit_opportunities min_exit_profit_rate positions quotes).Pairwise
      (fun a b => b.profit_rate ≤ a.profit_rate) ∧
    ∀ o ∈ find_all_exit_opportunities min_exit_profit_rate positions quotes,
      min_exit_profit_rate ≤ o.profit_rate ∧ ∃ pm_quote kl_quote,
        quotes o.position.pm_token_id = some (pm_quote, kl_quote) ∧
        o.pm_bid = pm_quote.bid ∧ o.kl_bid = 1 - kl_quote.ask ∧
        o.exit_value =
          pm_quote.bid * o.position.pm_quantity +
            (1 - kl_quote.ask) * o.position.kl_quantity ∧
        o.profit = o.exit_value - o.position.total_entry_cost ∧
        o.profit_rate =
          (if 0 < o.position.total_entry_cost then
            o.profit / o.position.total_entry_cost
          else 0) := by
  constructor
  · unfold find_all_exit_opportunities
    refine List.Pairwise.imp ?_ (List.sorted_mergeSort ?_ ?_ _)
    · intro a b hab
      exact of_decide_eq_true hab
    · intro a b c h1 h2
      simp only [decide_eq_true_eq] at h1 h2 ⊢
      exact le_trans h2 h1
    · intro a b
      simp only [Bool.or_eq_true, decide_eq_true_eq]
      exact le_total b.profit_rate a.profit_rate
  · intro o ho
    unfold find_all_exit_opportunities at ho
    rw [List.mem_mergeSort, List.mem_filterMap] at ho
    obtain ⟨position, _hpos, hstep⟩ := ho
    unfold exitStep at hstep
    cases hq : quotes position.pm_token_id with
    | none =>
      rw [hq] at hstep
      exact absurd hstep (by simp)
    | some pk =>
      obtain ⟨pm_quote, kl_quote⟩ := pk
      rw [hq, Option.some_bind] at hstep
      unfold find_exit_opportunity at hstep
      split at hstep
      · exact absurd hstep (by simp)
      · split at hstep
        · rename_i hcond
          rw [Option.some_inj] at hstep
          subst hstep
          exact ⟨hcond, pm_quote, kl_quote, hq, rfl, rfl, rfl, rfl, rfl⟩
        · exact absurd hstep (by simp)

def pairW8 : ContractPair :=
  { event_name := "E8", polymarket_token_id := "T8", kalshi_ticker := "K8",
    outcome := "YES", active := true }

def posW8 : ArbitragePosition :=
  { position_id := "p8"
    contract_pair := pairW8
    pm_token_id := "T8"
    pm_quantity := 1
    pm_entry_price := 1 / 4
    kl_ticker := "K8"
    kl_quantity := 1
    kl_entry_price := 1 / 4
    total_entry_cost := 1 / 2
    created_at := dtW4 }

def pmW8 : Quote := { bid := 9 / 10, ask := 1, bid_size := 10, ask_size := 10 }

def klW8 : Quote := { bid := 2 / 5, ask := 1 / 2, bid_size := 10, ask_size := 10 }

def quotesW8 (token : String) : Option (Quote × Quote) :=
  if token = "T8" then some (pmW8, klW8) else none

def oppW8 : ExitOpportunity :=
  { position := posW8
    pm_bid := 9 / 10
    kl_bid := 1 / 2
    exit_value := 7 / 5
    profit := 9 / 10
    profit_rate := 9 / 5 }

/-- C8 witness: the concrete one-position scan emits `oppW8` (exit value
1.4, profit 0.9, rate 1.8), and the theorem instantiates to its rate
clearing the 0.5% threshold. -/
theorem C8_exits_witness : (1 : ℚ) / 200 ≤ oppW8.profit_rate :=
  ((C8_exits (1 / 200) [posW8] quotesW8).2 oppW8 (by
    unfold find_all_exit_opportunities
    rw [List.mem_mergeSort, List.mem_filterMap]
    refine ⟨posW8, by simp, ?_⟩
    norm_num [exitStep, quotesW8, posW8, find_exit_opportunity, exitProfitRate,
      ArbitragePosition.quantity, ArbitragePosition.calculate_exit_value,
      ArbitragePosition.calculate_exit_profit, pmW8, klW8, oppW8, pairW8, min_def])).1

def pairC7 : ContractPair :=
  { event_name := "E7", polymarket_token_id := "T7", kalshi_ticker := "K7",
    outcome := "YES", active := true }

def quoteC7 : Quote := { bid := 0, ask := 0, bid_size := 0, ask_size := 0 }

def oppC7 : ArbitrageOpportunity :=
  { contract_pair := pairC7
    pm_quote := quoteC7
    kl_quote := quoteC7
    mode := "T2T"
    net_profit_rate := 3 / 17
    suggested_quantity := 10
    pm_price := 2 / 5
    kl_price := 9 / 20 }

/-- A Polymarket order with zero filled quantity but a positive requested
quantity: the Python `or` chain falls through to the requested quantity. -/
def pmO7 : Order :=
  { price := 2 / 5, quantity := 5, order_id := some "o1", status := OrderStatus.filled,
    filled_quantity := 0, average_fill_price := none }

def klO7 : Order :=
  { price := 9 / 20, quantity := 10, order_id := some "o2", status := OrderStatus.filled,
    filled_quantity := 10, average_fill_price := none }

def trC7 : TradeResult :=
  { success := true, pm_order := some pmO7, kl_order := some klO7, net_profit := 0,
    error_message := none, requires_panic_sell := false }

/-- C7, counterexample: a successful trade whose Polymarket order has
filled quantity 0 (but requested quantity 5) still records a position —
the code's `filled_quantity or quantity or suggested_quantity` chain treats
the zero fill as missing and falls back — whereas the claim's prerequisite
"both legs have order data with positive filled quantity" is not met, so
the claim requires `None`. -/
theorem C7_counterexample :
    ((record_position [] oppC7 trC7 "id7" dtW4).1).isSome = true ∧
    trC7.pm_order.map Order.filled_quantity = some 0 := by
  constructor
  · norm_num [record_position, pyOrQ, oppC7, pmO7, klO7, trC7]
  · norm_num [trC7, pmO7]

/-- C7, amended: `record_position` constructs and persists a position
exactly when the trade result is successful, both legs carry order data,
and both effective quantities are positive — the effective quantity falling
back from the filled quantity through the order's requested quantity to the
opportunity's suggested quantity (truncated to an integer on the Kalshi
leg), a zero value treated as missing at each step.  Entry prices use each
leg's average fill price unless it is absent or zero, falling back to the
opportunity's planned price.  In every other case it returns `none` and
leaves the position set unchanged (the source raises no exception on any
path). -/
theorem C7_amended (positions : List ArbitragePosition)
    (opportunity : ArbitrageOpportunity) (trade_result : TradeResult)
    (position_id : String) (now : DateTime) :
    ((record_position positions opportunity trade_result position_id now).1 = none →
      (record_position positions opportunity trade_result position_id now).2 = positions) ∧
    ((record_position positions opportunity trade_result position_id now).1.isSome = true ↔
      trade_result.success = true ∧ ∃ pm_order kl_order,
        trade_result.pm_order = some pm_order ∧ trade_result.kl_order = some kl_order ∧
        0 < pyOrQ pm_order.filled_quantity
          (pyOrQ pm_order.quantity opportunity.suggested_quantity) ∧
        0 < pyOrQ kl_order.filled_quantity
          (pyOrQ kl_order.quantity ((truncInt opportunity.suggested_quantity : ℤ) : ℚ))) ∧
    (∀ pm_order kl_order, trade_result.pm_order = some pm_order →
      trade_result.kl_order = some kl_order →
      (record_position positions opportunity trade_result position_id now).1.isSome = true →
      (record_position positions opportunity trade_result position_id now).1 =
          some (recordedPosition opportunity pm_order kl_order position_id now) ∧
        (record_position positions opportunity trade_result position_id now).2 =
          positions ++ [recordedPosition opportunity pm_order kl_order position_id now] ∧
        (recordedPosition opportunity pm_order kl_order position_id now).pm_entry_price =
          pyOrOpt pm_order.average_fill_price opportunity.pm_price ∧
        (recordedPosition opportunity pm_order kl_order position_id now).kl_entry_price =
          pyOrOpt kl_order.average_fill_price opportunity.kl_price) := by
  obtain ⟨succ, pmo, klo, np, em, rps⟩ := trade_result
  unfold record_position
  dsimp only
  cases succ with
  | false => simp
  | true =>
    cases pmo with
    | none => simp
    | some pm_order =>
      cases klo with
      | none => simp
      | some kl_order =>
        simp only [show ((true = false) = False) from by simp, if_false]
        split
        · rename_i hle
          refine ⟨fun _ => rfl, ?_, ?_⟩
          · constructor
            · intro h
              exact absurd h (by simp)
            · rintro ⟨-, pm', kl', h1, h2, hp1, hp2⟩
              injection h1 with h1
              injection h2 with h2
              subst h1
              subst h2
              rcases hle with h | h
              · exact absurd hp1 (not_lt.mpr h)
              · exact absurd hp2 (not_lt.mpr h)
          · intro pm' kl' h1 h2 hsome
            exact absurd hsome (by simp)
        · rename_i hle
          push_neg at hle
          refine ⟨?_, ?_, ?_⟩
          · intro h
            exact absurd h (by simp)
          · constructor
            · intro _
              exact ⟨trivial, pm_order, kl_order, rfl, rfl, hle.1, hle.2⟩
            · intro _
              rfl
          · intro pm' kl' h1 h2 _
            injection h1 with h1
            injection h2 with h2
            subst h1
            subst h2
            exact ⟨rfl, rfl, rfl, rfl⟩

def oppW7 : ArbitrageOpportunity :=
  { contract_pair := pairC7
    pm_quote := quoteC7
    kl_quote := quoteC7
    mode := "T2T"
    net_profit_rate := 3 / 17
    suggested_quantity := 10
    pm_price := 2 / 5
    kl_price := 9 / 20 }

def pmW7o : Order :=
  { price := 2 / 5, quantity := 10, order_id := some "w1", status := OrderStatus.filled,
    filled_quantity := 10, average_fill_price := some (3 / 10) }

def klW7o : Order :=
  { price := 9 / 20, quantity := 10, order_id := some "w2", status := OrderStatus.filled,
    filled_quantity := 10, average_fill_price := none }

def trW7 : TradeResult :=
  { success := true, pm_order := some pmW7o, kl_order := some klW7o, net_profit := 5 / 2,
    error_message := none, requires_panic_sell := false }

/-- C7 witness: a fully-filled successful trade is recorded and appended to
the position set, the Polymarket entry price taken from its average fill
price and the Kalshi entry price falling back to the planned price. -/
theorem C7_amended_witness :
    (record_position [] oppW7 trW7 "id-w7" dtW4).1 =
      some (recordedPosition oppW7 pmW7o klW7o "id-w7" dtW4) ∧
    (record_position [] oppW7 trW7 "id-w7" dtW4).2 =
      [] ++ [recordedPosition oppW7 pmW7o klW7o "id-w7" dtW4] ∧
    (recordedPosition oppW7 pmW7o klW7o "id-w7" dtW4).pm_entry_price =
      pyOrOpt pmW7o.average_fill_price oppW7.pm_price ∧
    (recordedPosition oppW7 pmW7o klW7o "id-w7" dtW4).kl_entry_price =
      pyOrOpt klW7o.average_fill_price oppW7.kl_price :=
  (C7_amended [] oppW7 trW7 "id-w7" dtW4).2.2 pmW7o klW7o rfl rfl
    (by norm_num [record_position, pyOrQ, oppW7, pmW7o, klW7o, trW7])

/-!
Execution Engine.  External effects (order placement calls that may raise,
fill polling) are supplied by an environment; the executors return the
terminal `TradeResult` together with the list of compensating (panic) sells
they performed.
-/

/-- Membership test `status in [FILLED, PARTIALLY_FILLED]`
(src/src/modules/trade_executor.py, lines 303-310). -/
def statusFilledLike : OrderStatus → Bool
  | OrderStatus.filled => true
  | OrderStatus.partially_filled => true
  | _ => false

/-- Membership test `status in [FILLED, OPEN]`
(src/src/modules/trade_executor.py, line 181). -/
def statusLive : OrderStatus → Bool
  | OrderStatus.filled => true
  | OrderStatus.opn => true
  | _ => false

/-- Python `order and order.status in [FILLED, PARTIALLY_FILLED]`: a leg
counts as filled when its order exists and is (partially) filled. -/
def optFilled : Option Order → Bool
  | some o => statusFilledLike o.status
  | none => false

/-- A compensating market sell performed on one venue
(src/src/modules/trade_executor.py, `_panic_sell` lines 441-458 and
`_panic_sell_kalshi` lines 460-481). -/
inductive PanicAction where
  | pm
  | kl
deriving DecidableEq

/-- Environment of one T2T execution: the outcome of each concurrently
placed taker order (`asyncio.gather` with `return_exceptions=True`,
src/src/modules/trade_executor.py line 282) — either the venue's `Order`
or the stringified exception. -/
structure T2TEnv where
  pmResult : Except String Order
  klResult : Except String Order

/-- Taker + Taker execution (src/src/modules/trade_executor.py,
`execute_t2t`, lines 240-372): place both taker orders concurrently, turn
exceptions into missing orders, then branch on which legs are filled.  The
final match's catch-all is unreachable (both legs filled implies both
orders exist) and mirrors the both-failed result. -/
def execute_t2t (env : T2TEnv) (opportunity : ArbitrageOpportunity) :
    TradeResult × List PanicAction :=
  let pm_order := env.pmResult.toOption
  let kl_order := env.klResult.toOption
  if optFilled pm_order && !optFilled kl_order then
    ({ success := false, pm_order := pm_order, kl_order := kl_order, net_profit := 0,
       error_message := some "Partial execution - KL failed",
       requires_panic_sell := true }, [PanicAction.pm])
  else if optFilled kl_order && !optFilled pm_order then
    ({ success := false, pm_order := pm_order, kl_order := kl_order, net_profit := 0,
       error_message := some "Partial execution - PM failed",
       requires_panic_sell := true }, [PanicAction.kl])
  else if !optFilled pm_order && !optFilled kl_order then
    ({ success := false, pm_order := pm_order, kl_order := kl_order, net_profit := 0,
       error_message := some "Both orders failed",
       requires_panic_sell := false }, [])
  else
    match pm_order, kl_order with
    | some po, some ko =>
      ({ success := true, pm_order := some po, kl_order := some ko,
         net_profit :=
           (1 - pyOrOpt po.average_fill_price opportunity.pm_price -
             pyOrOpt ko.average_fill_price opportunity.kl_price) *
             min po.filled_quantity ko.filled_quantity,
         error_message := none, requires_panic_sell := false }, [])
    | _, _ =>
      ({ success := false, pm_order := pm_order, kl_order := kl_order, net_profit := 0,
         error_message := some "Both orders failed",
         requires_panic_sell := false }, [])

/-- Outcome of waiting for the maker order to fill
(src/src/modules/trade_executor.py, `_wait_for_fill`, lines 390-439):
either it returns true having set the order to `FILLED` with the observed
filled quantity, or it returns false with whatever status and filled
quantity the polling loop last recorded (unchanged, partially filled, or
cancelled). -/
inductive WaitResult where
  | filled (filled_quantity : ℚ)
  | timeout (status : OrderStatus) (filled_quantity : ℚ)

/-- Environment of one M2T execution: the maker placement outcome, the
polling outcome, the `size_matched` reported by the post-timeout
`get_orders` lookup (when the order is found), and the two possible Kalshi
taker calls (partial-fill hedge and full-fill hedge), each either an
`Order` or the stringified exception. -/
structure M2TEnv where
  pmPlace : Except String Order
  wait : WaitResult
  lateMatched : Option ℚ
  klHedge : Except String Order
  klMain : Except String Order

/-- Maker + Taker execution (src/src/modules/trade_executor.py,
`execute_m2t`, lines 53-238), transcribed branch for branch:

1. maker placement raising lands in the outer handler with no orders;
2. timeout path (lines 97-160): refresh the partial fill from
   `get_orders`, cancel, and either hedge a positive partial fill (success
   scaled to it, or on a hedge exception failure with the compensation
   flag set after panic selling) or report a plain timeout failure;
3. filled path (lines 162-217): place the Kalshi taker; if that call
   raises, the outer handler (lines 219-238) cancels, panic sells the
   filled maker — and returns with `requires_panic_sell` left `False`;
   if it returns a dead order, failure with the flag set; otherwise
   success with profit at the averaged fill prices. -/
def execute_m2t (env : M2TEnv) (opportunity : ArbitrageOpportunity) :
    TradeResult × List PanicAction :=
  match env.pmPlace with
  | Except.error e =>
    ({ success := false, pm_order := none, kl_order := none, net_profit := 0,
       error_message := some e, requires_panic_sell := false }, [])
  | Except.ok pm_order0 =>
    match env.wait with
    | WaitResult.timeout st fq =>
      let pm1 : Order := { pm_order0 with status := st, filled_quantity := fq }
      let pm2 : Order :=
        match env.lateMatched with
        | some size_matched =>
          if 0 < size_matched then
            { pm1 with filled_quantity := size_matched,
                       status := OrderStatus.partially_filled }
          else pm1
        | none => pm1
      if 0 < pm2.filled_quantity then
        match env.klHedge with
        | Except.ok kl_order =>
          ({ success := true, pm_order := some pm2, kl_order := some kl_order,
             net_profit :=
               match pm2.average_fill_price with
               | some avg =>
                 if avg = 0 then 0
                 else (1 - avg - opportunity.kl_price) * pm2.filled_quantity
               | none => 0,
             error_message := none, requires_panic_sell := false }, [])
        | Except.error e =>
          ({ success := false, pm_order := some pm2, kl_order := none, net_profit := 0,
             error_message := some ("Partial fill hedge failed: " ++ e),
             requires_panic_sell := true }, [PanicAction.pm])
      else
        ({ success := false, pm_order := some pm2, kl_order := none, net_profit := 0,
           error_message := some "Maker order timeout",
           requires_panic_sell := false }, [])
    | WaitResult.filled fq =>
      let pm1 : Order :=
        { pm_order0 with status := OrderStatus.filled, filled_quantity := fq }
      match env.klMain with
      | Except.error e =>
        ({ success := false, pm_order := some pm1, kl_order := none, net_profit := 0,
           error_message := some e, requires_panic_sell := false }, [PanicAction.pm])
      | Except.ok kl_order =>
        if statusLive kl_order.status = false then
          ({ success := false, pm_order := some pm1, kl_order := some kl_order,
             net_profit := 0,
             error_message := some "Taker hedge failed, panic sell executed",
             requires_panic_sell := true }, [PanicAction.pm])
        else
          ({ success := true, pm_order := some pm1, kl_order := some kl_order,
             net_profit :=
               (1 - pyOrOpt pm1.average_fill_price opportunity.pm_price -
                 pyOrOpt kl_order.average_fill_price opportunity.kl_price) *
                 pm1.filled_quantity,
             error_message := none, requires_panic_sell := false }, [])

def pairC1 : ContractPair :=
  { event_name := "E1", polymarket_token_id := "T1", kalshi_ticker := "K1",
    outcome := "YES", active := true }

def quoteC1 : Quote := { bid := 0, ask := 0, bid_size := 0, ask_size := 0 }

def oppC1 : ArbitrageOpportunity :=
  { contract_pair := pairC1
    pm_quote := quoteC1
    kl_quote := quoteC1
    mode := "M2T"
    net_profit_rate := 1 / 100
    suggested_quantity := 10
    pm_price := 2 / 5
    kl_price := 9 / 20 }

def pmOrderC1 : Order :=
  { price := 2 / 5, quantity := 10, order_id := some "pm-1",
    status := OrderStatus.opn, filled_quantity := 0, average_fill_price := none }

/-- The failing environment for C1: the maker order fills completely, then
the Kalshi `create_order` call raises a transport error. -/
def envC1 : M2TEnv :=
  { pmPlace := Except.ok pmOrderC1
    wait := WaitResult.filled 10
    lateMatched := none
    klHedge := Except.error "unused"
    klMain := Except.error "Kalshi create_order: connection error" }

/-- C1, code bug: in the M2T outer exception handler
(src/src/modules/trade_executor.py, lines 219-238), when the Polymarket
maker has FILLED and the Kalshi call raised, the code panic sells the
Polymarket position (line 231) but builds the returned `TradeResult`
without `requires_panic_sell=True` (lines 233-238).  The terminal result
therefore has exactly one leg filled with the compensation flag false —
violating the claim, the spec's Execution Engine property, and the M2T
protocol step 5 ("report failure with the compensation flag set"), even
though the compensating sell itself was performed. -/
theorem C1_code_bug_eval :
    (execute_m2t envC1 oppC1).1.requires_panic_sell = false ∧
    (execute_m2t envC1 oppC1).1.success = false ∧
    optFilled (execute_m2t envC1 oppC1).1.pm_order = true ∧
    optFilled (execute_m2t envC1 oppC1).1.kl_order = false ∧
    (execute_m2t envC1 oppC1).2 = [PanicAction.pm] := by
  refine ⟨rfl, rfl, rfl, rfl, rfl⟩

def poC5 : Order :=
  { price := 2 / 5, quantity := 10, order_id := some "c5a",
    status := OrderStatus.filled, filled_quantity := 10,
    average_fill_price := some 0 }

def koC5 : Order :=
  { price := 1 / 2, quantity := 10, order_id := some "c5b",
    status := OrderStatus.filled, filled_quantity := 10,
    average_fill_price := some (1 / 2) }

def envC5 : T2TEnv := { pmResult := Except.ok poC5, klResult := Except.ok koC5 }

def oppC5 : ArbitrageOpportunity :=
  { contract_pair := pairC1
    pm_quote := quoteC1
    kl_quote := quoteC1
    mode := "T2T"
    net_profit_rate := 1 / 100
    suggested_quantity := 10
    pm_price := 3 / 10
    kl_price := 1 / 2 }

/-- C5, counterexample: both legs fill, the Polymarket leg reporting an
average fill price that is present but equal to 0.  The claim's formula
(substitute the planned price only when the average is absent) yields
`(1 − 0 − 0.5) × 10 = 5`; the code's Python `or` treats the 0.0 average as
falsy and substitutes the planned price 0.3, returning net profit
`(1 − 0.3 − 0.5) × 10 = 2`. -/
theorem C5_counterexample :
    (execute_t2t envC5 oppC5).1.net_profit = 2 ∧
    (execute_t2t envC5 oppC5).1.net_profit ≠
      (1 - 0 - 1 / 2) * min poC5.filled_quantity koC5.filled_quantity := by
  constructor <;>
    norm_num [execute_t2t, envC5, poC5, koC5, oppC5, Except.toOption, optFilled,
      statusFilledLike, pyOrOpt, min_def]

/-- C5, amended: for every T2T execution in which both legs reach a filled
or partially-filled status, the returned result is a success whose net
profit is `(1 − pm price − kl price) × min(pm filled, kl filled)`, where
each leg's price is its average fill price unless that is absent or zero
(Python falsy), in which case the opportunity's planned price is
substituted. -/
theorem C5_amended (env : T2TEnv) (opportunity : ArbitrageOpportunity) (po ko : Order)
    (hpm : env.pmResult = Except.ok po) (hkl : env.klResult = Except.ok ko)
    (hpf : statusFilledLike po.status = true) (hkf : statusFilledLike ko.status = true) :
    (execute_t2t env opportunity).1.success = true ∧
    (execute_t2t env opportunity).1.net_profit =
      (1 - pyOrOpt po.average_fill_price opportunity.pm_price -
        pyOrOpt ko.average_fill_price opportunity.kl_price) *
        min po.filled_quantity ko.filled_quantity := by
  simp [execute_t2t, hpm, hkl, Except.toOption, optFilled, hpf, hkf]

def poW5 : Order :=
  { price := 2 / 5, quantity := 10, order_id := some "w5a",
    status := OrderStatus.filled, filled_quantity := 8,
    average_fill_price := some (7 / 20) }

def koW5 : Order :=
  { price := 1 / 2, quantity := 10, order_id := some "w5b",
    status := OrderStatus.partially_filled, filled_quantity := 10,
    average_fill_price := none }

def envW5 : T2TEnv := { pmResult := Except.ok poW5, klResult := Except.ok koW5 }

def oppW5 : ArbitrageOpportunity :=
  { contract_pair := pairC1
    pm_quote := quoteC1
    kl_quote := quoteC1
    mode := "T2T"
    net_profit_rate := 1 / 100
    suggested_quantity := 10
    pm_price := 2 / 5
    kl_price := 9 / 20 }

/-- C5 witness: unequal fills 8 and 10, a present average on one leg and a
fallback on the other — the execution succeeds with the matched-minimum
profit formula. -/
theorem C5_amended_witness :
    (execute_t2t envW5 oppW5).1.success = true ∧
    (execute_t2t envW5 oppW5).1.net_profit =
      (1 - pyOrOpt poW5.average_fill_price oppW5.pm_price -
        pyOrOpt koW5.average_fill_price oppW5.kl_price) *
        min poW5.filled_quantity koW5.filled_quantity :=
  C5_amended envW5 oppW5 poW5 koW5 rfl rfl rfl rfl

/-!
Orchestrator.  One `run_once` analysis cycle (src/src/bot.py, lines
162-259).  The Execution Engine invocations are collaborators here: the
exit execution (`trade_executor.execute_exit`, which bot.py calls but no
module of the repository defines) and the entry execution are supplied as
their terminal `TradeResult`s; the fresh position id and creation instant
of a recorded position are passed in likewise.
-/

/-- The `quotes_by_token` dict built in `run_once` (src/src/bot.py, lines
175-188): keyed by the Polymarket token id; dict insertion makes the last
entry win for a duplicated token. -/
def quotesByToken (pairs : List (ContractPair × Quote × Quote)) (token : String) :
    Option (Quote × Quote) :=
  (pairs.reverse.find? fun e => e.1.polymarket_token_id == token).map fun e =>
    (e.2.1, e.2.2)

/-- Removing a closed position by id (src/src/modules/position_manager.py,
`remove_position`, lines 173-182); idempotent. -/
def remove_position (positions : List ArbitragePosition) (position_id : String) :
    List ArbitragePosition :=
  positions.filter fun p => !(p.position_id == position_id)

/-- What one analysis cycle did: whether an exit execution and an entry
execution were attempted, the returned trade result, and the resulting
position set. -/
structure RunOutcome where
  exit_attempted : Bool
  entry_attempted : Bool
  result : Option TradeResult
  positions : List ArbitragePosition
deriving DecidableEq

/-- Steps 3-4 of `run_once` (src/src/bot.py, lines 217-259): run the
Finder over all pairs; if nothing is found return nothing, otherwise
execute the top-ranked opportunity, record the position on success, and
return the result whether or not it succeeded. -/
def runEntry (cfg : TradingConfig) (positions : List ArbitragePosition)
    (pairs : List (ContractPair × Quote × Quote)) (entry_result : TradeResult)
    (fresh_id : String) (now : DateTime) (exit_attempted : Bool) : RunOutcome :=
  match analyze_all_pairs cfg pairs with
  | [] =>
    { exit_attempted := exit_attempted, entry_attempted := false, result := none,
      positions := positions }
  | best :: _ =>
    { exit_attempted := exit_attempted
      entry_attempted := true
      result := some entry_result
      positions :=
        if entry_result.success then
          (record_position positions best entry_result fresh_id now).2
        else positions }

/-- One analysis cycle (src/src/bot.py, `run_once`, lines 162-259): with no
quoted pairs return nothing; if positions are open and the exit scan finds
opportunities, execute the best exit — on success remove the position and
return, but on a failed exit fall through to the entry steps. -/
def run_once (cfg : TradingConfig) (min_exit_profit_rate : ℚ)
    (positions : List ArbitragePosition)
    (pairs : List (ContractPair × Quote × Quote))
    (exit_result entry_result : TradeResult) (fresh_id : String) (now : DateTime) :
    RunOutcome :=
  if pairs.isEmpty then
    { exit_attempted := false, entry_attempted := false, result := none,
      positions := positions }
  else
    match
      (if positions.length > 0 then
        find_all_exit_opportunities min_exit_profit_rate positions (quotesByToken pairs)
      else []) with
    | [] => runEntry cfg positions pairs entry_result fresh_id now false
    | best_exit :: _ =>
      if exit_result.success then
        { exit_attempted := true, entry_attempted := false, result := some exit_result,
          positions := remove_position positions best_exit.position.position_id }
      else runEntry cfg positions pairs entry_result fresh_id now true

def cfgC9 : TradingConfig := { min_profit_target := 1 / 500, capital_per_trade := 5 }

def pairE9 : ContractPair :=
  { event_name := "E9", polymarket_token_id := "T9", kalshi_ticker := "K9",
    outcome := "YES", active := true }

def pmQ9 : Quote := { bid := 9 / 10, ask := 2 / 5, bid_size := 100, ask_size := 100 }

def klQ9 : Quote := { bid := 11 / 20, ask := 1, bid_size := 100, ask_size := 100 }

def pairsC9 : List (ContractPair × Quote × Quote) := [(pairE9, pmQ9, klQ9)]

def posC9 : ArbitragePosition :=
  { position_id := "p9"
    contract_pair := pairE9
    pm_token_id := "T9"
    pm_quantity := 1
    pm_entry_price := 1 / 4
    kl_ticker := "K9"
    kl_quantity := 1
    kl_entry_price := 1 / 4
    total_entry_cost := 1 / 2
    created_at := dtW4 }

def oppE9 : ExitOpportunity :=
  { position := posC9
    pm_bid := 9 / 10
    kl_bid := 0
    exit_value := 9 / 10
    profit := 2 / 5
    profit_rate := 4 / 5 }

def oppT9 : ArbitrageOpportunity :=
  { contract_pair := pairE9
    pm_quote := pmQ9
    kl_quote := klQ9
    mode := "T2T"
    net_profit_rate := 3 / 17
    suggested_quantity := 200 / 17
    pm_price := 2 / 5
    kl_price := 9 / 20 }

def exitFailC9 : TradeResult :=
  { success := false, pm_order := none, kl_order := none, net_profit := 0,
    error_message := some "exit execution failed", requires_panic_sell := false }

def exitOkC9 : TradeResult :=
  { success := true, pm_order := none, kl_order := none, net_profit := 2 / 5,
    error_message := none, requires_panic_sell := false }

def entryFailC9 : TradeResult :=
  { success := false, pm_order := none, kl_order := none, net_profit := 0,
    error_message := some "entry execution failed", requires_panic_sell := false }

lemma exitsC9_eq :
    find_all_exit_opportunities (1 / 200) [posC9] (quotesByToken pairsC9) = [oppE9] := by
  unfold find_all_exit_opportunities
  rw [show [posC9].filterMap (exitStep (1 / 200) (quotesByToken pairsC9)) = [oppE9] from ?_]
  · exact List.mergeSort_singleton oppE9
  · norm_num [exitStep, quotesByToken, pairsC9, posC9, pairE9, pmQ9, klQ9,
      find_exit_opportunity, exitProfitRate, ArbitragePosition.quantity,
      ArbitragePosition.calculate_exit_value, ArbitragePosition.calculate_exit_profit,
      oppE9, min_def, List.filterMap]

lemma m2tC9_none : find_m2t_opportunity cfgC9 pairE9 pmQ9 klQ9 none = none := by
  norm_num [find_m2t_opportunity, m2tMaxQuantity, m2tAvgPrice,
    calculate_optimal_maker_price, m2tMaxPmPrice, calculate_net_cost_m2t, truncInt,
    KalshiClient.calculate_taker_fee, PolymarketClient.calculate_maker_fee,
    cfgC9, pmQ9, klQ9, min_def, max_def]

lemma t2tC9_some : find_t2t_opportunity cfgC9 pairE9 pmQ9 klQ9 = some oppT9 := by
  norm_num [find_t2t_opportunity, calculate_net_cost_t2t, t2tMaxQuantity, t2tAvgPrice,
    KalshiClient.calculate_taker_fee, PolymarketClient.calculate_taker_fee,
    cfgC9, pairE9, pmQ9, klQ9, oppT9, min_def]

lemma analyzeC9_eq : analyze_all_pairs cfgC9 pairsC9 = [oppT9] := by
  unfold analyze_all_pairs pairsC9
  simp only [List.foldr_cons, List.foldr_nil, find_opportunities, m2tC9_none,
    t2tC9_some, Option.toList_none, Option.toList_some, List.nil_append,
    List.append_nil, List.mergeSort_singleton]

/-- C9, counterexample: with one open position, quotes giving an exit
opportunity far above the threshold, and an exit execution that fails, the
cycle attempts the exit and then still runs the Finder and attempts an
entry — `run_once` skips entry logic only when the exit execution
succeeds, so a single cycle can execute both an exit attempt and an
entry. -/
theorem C9_counterexample :
    find_all_exit_opportunities (1 / 200) [posC9] (quotesByToken pairsC9) ≠ [] ∧
    (run_once cfgC9 (1 / 200) [posC9] pairsC9 exitFailC9 entryFailC9 "f9" dtW4).exit_attempted
      = true ∧
    (run_once cfgC9 (1 / 200) [posC9] pairsC9 exitFailC9 entryFailC9 "f9" dtW4).entry_attempted
      = true := by
  have hrun :
      run_once cfgC9 (1 / 200) [posC9] pairsC9 exitFailC9 entryFailC9 "f9" dtW4 =
        { exit_attempted := true, entry_attempted := true,
          result := some entryFailC9, positions := [posC9] } := by
    unfold run_once
    rw [if_neg (by simp [pairsC9]), if_pos (by simp), exitsC9_eq]
    rw [show exitFailC9.success = false from rfl]
    simp only [Bool.false_eq_true, if_false]
    unfold runEntry
    rw [analyzeC9_eq]
    rw [show entryFailC9.success = false from rfl]
    simp only [Bool.false_eq_true, if_false]
  refine ⟨by rw [exitsC9_eq]; simp, by rw [hrun], by rw [hrun]⟩

/-- C9, amended: in every cycle with quoted pairs, at least one open
position, and an exit scan whose best opportunity clears the threshold,
the exit is executed first; if the exit execution succeeds, the entry
logic is skipped for that cycle and the cycle returns the exit result.
(Only when the exit execution fails does the cycle fall through to entry
analysis.) -/
theorem C9_amended (cfg : TradingConfig) (min_exit_profit_rate : ℚ)
    (positions : List ArbitragePosition)
    (pairs : List (ContractPair × Quote × Quote))
    (exit_result entry_result : TradeResult) (fresh_id : String) (now : DateTime)
    (hpairs : pairs.isEmpty = false)
    (hpos : positions.length > 0)
    (hex : find_all_exit_opportunities min_exit_profit_rate positions
      (quotesByToken pairs) ≠ [])
    (hsucc : exit_result.success = true) :
    (run_once cfg min_exit_profit_rate positions pairs exit_result entry_result
      fresh_id now).exit_attempted = true ∧
    (run_once cfg min_exit_profit_rate positions pairs exit_result entry_result
      fresh_id now).entry_attempted = false ∧
    (run_once cfg min_exit_profit_rate positions pairs exit_result entry_result
      fresh_id now).result = some exit_result := by
  obtain ⟨best, rest, hbr⟩ := List.exists_cons_of_ne_nil hex
  unfold run_once
  rw [hpairs]
  simp only [Bool.false_eq_true, if_false]
  rw [if_pos hpos, hbr, hsucc]
  simp only [if_true]
  exact ⟨by trivial, by trivial, by trivial⟩

/-- C9 witness: same concrete cycle as the counterexample but with a
successful exit execution — the exit is attempted, entry is skipped, and
the cycle returns the exit result. -/
theorem C9_amended_witness :
    (run_once cfgC9 (1 / 200) [posC9] pairsC9 exitOkC9 entryFailC9 "f9" dtW4).exit_attempted
      = true ∧
    (run_once cfgC9 (1 / 200) [posC9] pairsC9 exitOkC9 entryFailC9 "f9" dtW4).entry_attempted
      = false ∧
    (run_once cfgC9 (1 / 200) [posC9] pairsC9 exitOkC9 entryFailC9 "f9" dtW4).result
      = some exitOkC9 :=
  C9_amended cfgC9 (1 / 200) [posC9] pairsC9 exitOkC9 entryFailC9 "f9" dtW4
    (by simp [pairsC9]) (by simp) (by rw [exitsC9_eq]; simp) rfl

end Arb
